import Mathlib

/-!
Verification of the pushup rep-counting firmware core: the rep/phase state
machine, prediction aggregation, timeout recovery, biquad filtering and the
normalization/quantization bridge.  Definitions are shallow embeddings of the
corresponding C++ functions in src/main.cpp and src/preprocessing.cpp; machine
floats are modelled as rationals and the single control loop as explicit state
passing.
-/

set_option maxRecDepth 4000

/-- The five rep-counting machine states (enum PushupState in main.cpp). -/
inductive PushupState
  | STATE_IDLE
  | STATE_AT_TOP
  | STATE_DESCENDING
  | STATE_AT_BOTTOM
  | STATE_ASCENDING
deriving DecidableEq, Repr

/-- Cycle lifecycle states (enum PushupCycleState in main.cpp). -/
inductive PushupCycleState
  | CYCLE_IDLE
  | CYCLE_IN_PROGRESS
  | CYCLE_DESCENDING
  | CYCLE_AT_BOTTOM
  | CYCLE_ASCENDING
deriving DecidableEq, Repr

/-- One buffered (posture, phase, timestamp) prediction (struct PredictionRecord). -/
structure PredictionRecord where
  posture_class : ℕ
  phase_class : ℕ
  timestamp_ms : ℕ
deriving DecidableEq, Repr

/-- struct RepCounter from main.cpp. -/
structure RepCounter where
  total_reps : ℕ
  good_form_reps : ℕ
  poor_form_reps : ℕ
  state : PushupState
  phase_confirm_count : ℕ
  good_form_count : ℕ
  poor_form_count : ℕ
  state_enter_time : ℕ
deriving DecidableEq, Repr

/-- struct PushupCycleTracker from main.cpp.  The C fixed array of 6 records
plus its `prediction_count` field is modelled as a list whose length is the
count (capacity 6 is maintained by the FIFO eviction in bufferPrediction). -/
structure PushupCycleTracker where
  cycle_state : PushupCycleState
  predictions : List PredictionRecord
  cycle_start_time : ℕ
  cycle_end_time : ℕ
deriving DecidableEq, Repr

def MAX_PREDICTIONS_PER_CYCLE : ℕ := 6

def STATE_TIMEOUT_MS : ℕ := 10000

def CYCLE_TIMEOUT_MS : ℕ := 10000

def WINDOW_SIZE : ℕ := 50

def NUM_CHANNELS : ℕ := 6

def BUFFER_SIZE : ℕ := WINDOW_SIZE

def NUM_POSTURE_CLASSES : ℕ := 4

/-- Initial global `rep_counter = {0, 0, 0, STATE_IDLE, 0, 0, 0, 0}`. -/
def rep_counter0 : RepCounter :=
  { total_reps := 0, good_form_reps := 0, poor_form_reps := 0,
    state := PushupState.STATE_IDLE, phase_confirm_count := 0,
    good_form_count := 0, poor_form_count := 0, state_enter_time := 0 }

/-- Initial global `cycle_tracker = {CYCLE_IDLE, {}, 0, 0, 0}`. -/
def cycle_tracker0 : PushupCycleTracker :=
  { cycle_state := PushupCycleState.CYCLE_IDLE, predictions := [],
    cycle_start_time := 0, cycle_end_time := 0 }

/-- Number of votes class `c` receives: the tally loop in AggregatePredictions
increments `votes[pred.posture_class]` for every buffered prediction whose
phase is not at-top (phase 0); per class this is the count below. -/
def voteCount (preds : List PredictionRecord) (c : ℕ) : ℕ :=
  preds.countP (fun p => p.phase_class != 0 && p.posture_class == c)

/-- The strict greater-than argmax scan over the four vote counters
(`best_class` / `max_votes` loop in AggregatePredictions): first maximum wins,
so ties break toward the lowest class index. -/
def bestByVotes (v0 v1 v2 v3 : ℕ) : ℕ :=
  let b1 := if v1 > v0 then ((1 : ℕ), v1) else ((0 : ℕ), v0)
  let b2 := if v2 > b1.2 then ((2 : ℕ), v2) else b1
  let b3 := if v3 > b2.2 then ((3 : ℕ), v3) else b2
  b3.1

/-- int AggregatePredictions(PushupCycleTracker*): with fewer than 2 buffered
predictions it falls back to the most recent prediction
(`predictions[prediction_count - 1]`), otherwise it majority-votes over the
non-at-top predictions with the strict-scan tie break. -/
def AggregatePredictions (tracker : PushupCycleTracker) : ℕ :=
  if tracker.predictions.length < 2 then
    (tracker.predictions.getD (tracker.predictions.length - 1) ⟨0, 0, 0⟩).posture_class
  else
    bestByVotes (voteCount tracker.predictions 0) (voteCount tracker.predictions 1)
      (voteCount tracker.predictions 2) (voteCount tracker.predictions 3)

/-- void CompleteRepWithAggregation(int): increments total_reps, bumps the
good or poor rep tally from the aggregated posture (`is_good_form` is
posture class 0), and clears the per-rep form counters. -/
def CompleteRepWithAggregation (aggregated_posture : ℕ) (rc : RepCounter) : RepCounter :=
  if aggregated_posture = 0 then
    { rc with total_reps := rc.total_reps + 1, good_form_reps := rc.good_form_reps + 1,
              good_form_count := 0, poor_form_count := 0 }
  else
    { rc with total_reps := rc.total_reps + 1, poor_form_reps := rc.poor_form_reps + 1,
              good_form_count := 0, poor_form_count := 0 }

/-- The posture-quality tally at the top of UpdateRepCounter. -/
def tallyPosture (posture : ℕ) (rc : RepCounter) : RepCounter :=
  if posture = 0 then { rc with good_form_count := rc.good_form_count + 1 }
  else { rc with poor_form_count := rc.poor_form_count + 1 }

/-- The prediction-buffering block of UpdateRepCounter: while a cycle is
active, append the new record; on overflow shift left (drop the oldest). -/
def bufferPrediction (phase posture now : ℕ) (ct : PushupCycleTracker) : PushupCycleTracker :=
  if ct.cycle_state ≠ PushupCycleState.CYCLE_IDLE then
    if ct.predictions.length < MAX_PREDICTIONS_PER_CYCLE then
      { ct with predictions := ct.predictions ++ [⟨posture, phase, now⟩] }
    else
      { ct with predictions := ct.predictions.tail ++ [⟨posture, phase, now⟩] }
  else ct

/-- The `switch (rep_counter.state)` transition block of UpdateRepCounter,
including the hysteresis counter and the rep-completion path. -/
def transitionStep (phase now : ℕ) (rc : RepCounter) (ct : PushupCycleTracker) :
    RepCounter × PushupCycleTracker :=
  match rc.state with
  | PushupState.STATE_IDLE =>
      if phase = 0 then ({ rc with state := PushupState.STATE_AT_TOP }, ct)
      else (rc, ct)
  | PushupState.STATE_AT_TOP =>
      if phase = 1 then
        if rc.phase_confirm_count + 1 ≥ 2 then
          ({ rc with state := PushupState.STATE_DESCENDING, phase_confirm_count := 0 },
           { ct with cycle_state := PushupCycleState.CYCLE_IN_PROGRESS,
                     predictions := [], cycle_start_time := now })
        else ({ rc with phase_confirm_count := rc.phase_confirm_count + 1 }, ct)
      else ({ rc with phase_confirm_count := 0 }, ct)
  | PushupState.STATE_DESCENDING =>
      if phase = 2 then
        if rc.phase_confirm_count + 1 ≥ 2 then
          ({ rc with state := PushupState.STATE_AT_BOTTOM, phase_confirm_count := 0 }, ct)
        else ({ rc with phase_confirm_count := rc.phase_confirm_count + 1 }, ct)
      else ({ rc with phase_confirm_count := 0 }, ct)
  | PushupState.STATE_AT_BOTTOM =>
      if phase = 1 then
        if rc.phase_confirm_count + 1 ≥ 2 then
          ({ rc with state := PushupState.STATE_ASCENDING, phase_confirm_count := 0 }, ct)
        else ({ rc with phase_confirm_count := rc.phase_confirm_count + 1 }, ct)
      else ({ rc with phase_confirm_count := 0 }, ct)
  | PushupState.STATE_ASCENDING =>
      if phase = 0 then
        if rc.phase_confirm_count + 1 ≥ 2 then
          ({ CompleteRepWithAggregation
               (AggregatePredictions { ct with cycle_end_time := now }) rc with
             state := PushupState.STATE_AT_TOP, phase_confirm_count := 0 },
           { ct with cycle_end_time := now,
                     cycle_state := PushupCycleState.CYCLE_IDLE, predictions := [] })
        else ({ rc with phase_confirm_count := rc.phase_confirm_count + 1 }, ct)
      else ({ rc with phase_confirm_count := 0 }, ct)

/-- The trailing `if (rep_counter.state != old_state)` block of
UpdateRepCounter: records the state-entry time and mirrors the new machine
state into the cycle lifecycle state. -/
def applyStateChange (old_state : PushupState) (now : ℕ) (rc : RepCounter)
    (ct : PushupCycleTracker) : RepCounter × PushupCycleTracker :=
  if rc.state ≠ old_state then
    ({ rc with state_enter_time := now },
     match rc.state with
     | PushupState.STATE_DESCENDING => { ct with cycle_state := PushupCycleState.CYCLE_DESCENDING }
     | PushupState.STATE_AT_BOTTOM => { ct with cycle_state := PushupCycleState.CYCLE_AT_BOTTOM }
     | PushupState.STATE_ASCENDING => { ct with cycle_state := PushupCycleState.CYCLE_ASCENDING }
     | _ => ct)
  else (rc, ct)

/-- void UpdateRepCounter(int phase, int posture): posture tally, prediction
buffering, hysteresis transition switch, then state-change bookkeeping, in the
order of the source. -/
def UpdateRepCounter (phase posture now : ℕ) (rc : RepCounter) (ct : PushupCycleTracker) :
    RepCounter × PushupCycleTracker :=
  let rc1 := tallyPosture posture rc
  let ct1 := bufferPrediction phase posture now ct
  let r2 := transitionStep phase now rc1 ct1
  applyStateChange rc1.state now r2.1 r2.2

/-- Feed a list of phase inputs, one UpdateRepCounter call per element, with a
fixed posture and timestamp. -/
def runPhases (phases : List ℕ) (posture now : ℕ) (rc : RepCounter)
    (ct : PushupCycleTracker) : RepCounter × PushupCycleTracker :=
  phases.foldl (fun p ph => UpdateRepCounter ph posture now p.1 p.2) (rc, ct)

/-- The state-machine timeout block in loop() (main.cpp lines 764-790): fires
only when the state is neither STATE_IDLE nor STATE_AT_TOP and more than 10 s
were spent in the current state; an ASCENDING state with at least 2 buffered
predictions force-completes the rep, anything else resets to STATE_IDLE. -/
def stateTimeoutStep (now : ℕ) (rc : RepCounter) (ct : PushupCycleTracker) :
    RepCounter × PushupCycleTracker :=
  if rc.state ≠ PushupState.STATE_IDLE ∧ rc.state ≠ PushupState.STATE_AT_TOP ∧
      now - rc.state_enter_time > STATE_TIMEOUT_MS then
    if rc.state = PushupState.STATE_ASCENDING ∧ 2 ≤ ct.predictions.length then
      ({ CompleteRepWithAggregation
           (AggregatePredictions { ct with cycle_end_time := now }) rc with
         state := PushupState.STATE_AT_TOP, phase_confirm_count := 0,
         state_enter_time := now },
       { ct with cycle_end_time := now,
                 cycle_state := PushupCycleState.CYCLE_IDLE, predictions := [] })
    else
      ({ rc with state := PushupState.STATE_IDLE, phase_confirm_count := 0,
                 state_enter_time := now },
       { ct with cycle_state := PushupCycleState.CYCLE_IDLE, predictions := [] })
  else (rc, ct)

/-- The cycle timeout block in loop() (main.cpp lines 792-807). -/
def cycleTimeoutStep (now : ℕ) (rc : RepCounter) (ct : PushupCycleTracker) :
    RepCounter × PushupCycleTracker :=
  if ct.cycle_state ≠ PushupCycleState.CYCLE_IDLE ∧
      now - ct.cycle_start_time > CYCLE_TIMEOUT_MS then
    ({ rc with state := PushupState.STATE_IDLE, phase_confirm_count := 0,
               good_form_count := 0, poor_form_count := 0 },
     { ct with cycle_state := PushupCycleState.CYCLE_IDLE, predictions := [] })
  else (rc, ct)

/-- Both timeout blocks of one loop() iteration, in source order. -/
def timeoutSteps (now : ℕ) (rc : RepCounter) (ct : PushupCycleTracker) :
    RepCounter × PushupCycleTracker :=
  let r1 := stateTimeoutStep now rc ct
  cycleTimeoutStep now r1.1 r1.2

/-- Invoke status of the opaque classifier (TfLiteStatus). -/
inductive TfLiteStatus
  | kTfLiteOk
  | kTfLiteError
deriving DecidableEq, Repr

/-- void RunInference(): skips when the window is not yet full, discards the
window when the classifier invoke reports a non-success status, and only
otherwise feeds the (phase, posture) pair to the state machine.  The opaque
classifier result and the statistical phase detection are parameters. -/
def RunInference (samples_collected : ℕ) (invoke_status : TfLiteStatus)
    (best_phase best_posture now : ℕ) (rc : RepCounter) (ct : PushupCycleTracker) :
    RepCounter × PushupCycleTracker :=
  if samples_collected < WINDOW_SIZE then (rc, ct)
  else if invoke_status ≠ TfLiteStatus.kTfLiteOk then (rc, ct)
  else UpdateRepCounter best_phase best_posture now rc ct

/-- Feedback state (w1, w2) of one biquad section (struct BiquadState in
preprocessing.h); machine floats are modelled as rationals. -/
structure BiquadState where
  w1 : ℚ
  w2 : ℚ
deriving DecidableEq, Repr

/-- One cascaded 4th-order filter: two biquad sections with their coefficient
sets (struct ButterworthFilter in preprocessing.h). -/
structure ButterworthFilter where
  section1 : BiquadState
  section2 : BiquadState
  b0_1 : ℚ
  b1_1 : ℚ
  b2_1 : ℚ
  a1_1 : ℚ
  a2_1 : ℚ
  b0_2 : ℚ
  b1_2 : ℚ
  b2_2 : ℚ
  a1_2 : ℚ
  a2_2 : ℚ
deriving DecidableEq, Repr

/-- float Preprocessor::ApplyBiquad(...): the Direct-Form-II-transposed
recurrence; returns the output and the updated section state. -/
def ApplyBiquad (state : BiquadState) (input b0 b1 b2 a1 a2 : ℚ) : ℚ × BiquadState :=
  let output := b0 * input + state.w1
  (output,
   { w1 := b1 * input - a1 * output + state.w2,
     w2 := b2 * input - a2 * output })

/-- float Preprocessor::ApplyButterworthFilter(...): section 1 then section 2
of the cascade, each through ApplyBiquad. -/
def ApplyButterworthFilter (f : ButterworthFilter) (input : ℚ) : ℚ × ButterworthFilter :=
  let r1 := ApplyBiquad f.section1 input f.b0_1 f.b1_1 f.b2_1 f.a1_1 f.a2_1
  let r2 := ApplyBiquad f.section2 r1.1 f.b0_2 f.b1_2 f.b2_2 f.a1_2 f.a2_2
  (r2.1, { f with section1 := r1.2, section2 := r2.2 })

/-- The epsilon guarding near-zero variance in NormalizeWindow (1e-8f). -/
def epsilonNorm : ℚ := 1 / 100000000

/-- C roundf: round half away from zero, as used in RunInference. -/
def roundf (q : ℚ) : ℤ := if 0 ≤ q then ⌊q + 1 / 2⌋ else -⌊-q + 1 / 2⌋

/-- The int8 clamp in RunInference (`if (q < -128) ... if (q > 127) ...`). -/
def clampInt8 (q : ℤ) : ℤ := if q < -128 then -128 else if q > 127 then 127 else q

/-- void NormalizeWindow(...): value at window row `i`, channel `ch`, read from
the circular buffer at `(buffer_index - WINDOW_SIZE + i + BUFFER_SIZE) % BUFFER_SIZE`
and normalized with the per-channel calibration constants. -/
def NormalizeWindow (imu_buffer : ℕ → ℕ → ℚ) (buffer_index : ℤ)
    (imu_mean imu_std : ℕ → ℚ) (i ch : ℕ) : ℚ :=
  let buf_idx := ((buffer_index - (WINDOW_SIZE : ℤ) + (i : ℤ) + (BUFFER_SIZE : ℤ)) %
      (BUFFER_SIZE : ℤ)).toNat
  (imu_buffer buf_idx ch - imu_mean ch) / (imu_std ch + epsilonNorm)

/-- The per-value quantization in RunInference:
`q = round(val / scale) + zero_point`, clamped to int8. -/
def QuantizeValue (val scale : ℚ) (zero_point : ℤ) : ℤ :=
  clampInt8 (roundf (val / scale) + zero_point)

/-- The value RunInference writes into the classifier input tensor at window
row `t`, channel `ch` (flattened index `t * NUM_CHANNELS + ch`). -/
def InputTensorValue (imu_buffer : ℕ → ℕ → ℚ) (buffer_index : ℤ)
    (imu_mean imu_std : ℕ → ℚ) (input_scale : ℚ) (input_zp : ℤ) (t ch : ℕ) : ℤ :=
  QuantizeValue (NormalizeWindow imu_buffer buffer_index imu_mean imu_std t ch)
    input_scale input_zp

/-- The dequantization formula of GetBestClass:
`prob = scale * (int - zero_point)`. -/
def Dequantize (scale : ℚ) (zero_point : ℤ) (q : ℤ) : ℚ :=
  scale * ((q : ℚ) - (zero_point : ℚ))

/-- int GetBestClass(TfLiteTensor*, int): argmax of the dequantized scores
under a strict greater-than scan starting from `max_prob = -1`. -/
def GetBestClass (data : ℕ → ℤ) (scale : ℚ) (zero_point : ℤ) (num_classes : ℕ) : ℕ :=
  ((List.range num_classes).foldl
    (fun acc i =>
      if Dequantize scale zero_point (data i) > acc.2
      then (i, Dequantize scale zero_point (data i)) else acc)
    ((0 : ℕ), (-1 : ℚ))).1

/-- The phase value each non-idle state waits to confirm (the transition
table of the `switch` in UpdateRepCounter); for STATE_IDLE the at-top input
transitions immediately without hysteresis. -/
def triggerPhase : PushupState → ℕ
  | PushupState.STATE_IDLE => 0
  | PushupState.STATE_AT_TOP => 1
  | PushupState.STATE_DESCENDING => 2
  | PushupState.STATE_AT_BOTTOM => 1
  | PushupState.STATE_ASCENDING => 0

/-- Reachability invariant of the control loop: whenever the machine is in one
of the in-cycle states, the cycle tracker is not idle. -/
def StateCycleInv (rc : RepCounter) (ct : PushupCycleTracker) : Prop :=
  (rc.state = PushupState.STATE_DESCENDING ∨ rc.state = PushupState.STATE_AT_BOTTOM ∨
   rc.state = PushupState.STATE_ASCENDING) →
    ct.cycle_state ≠ PushupCycleState.CYCLE_IDLE

instance (rc : RepCounter) (ct : PushupCycleTracker) : Decidable (StateCycleInv rc ct) := by
  unfold StateCycleInv; infer_instance

/-- A machine stuck in STATE_AT_TOP since time 0. -/
def rcAtTopStuck : RepCounter :=
  { total_reps := 0, good_form_reps := 0, poor_form_reps := 0,
    state := PushupState.STATE_AT_TOP, phase_confirm_count := 0,
    good_form_count := 0, poor_form_count := 0, state_enter_time := 0 }

/-- A cycle with two buffered predictions, both in the at-top phase; the most
recent one has posture class 1. -/
def ctAllAtTop : PushupCycleTracker :=
  { cycle_state := PushupCycleState.CYCLE_ASCENDING,
    predictions := [⟨0, 0, 100⟩, ⟨1, 0, 200⟩],
    cycle_start_time := 0, cycle_end_time := 0 }

/-- The ring of the spec example: [(good, moving), (poor, moving),
(good, at-bottom)], i.e. postures [0, 1, 0] with phases [1, 1, 2]. -/
def ctExampleRing : PushupCycleTracker :=
  { cycle_state := PushupCycleState.CYCLE_ASCENDING,
    predictions := [⟨0, 1, 0⟩, ⟨1, 1, 0⟩, ⟨0, 2, 0⟩],
    cycle_start_time := 0, cycle_end_time := 0 }

/-- A cycle with a single buffered prediction of posture class 2. -/
def ctOnePred : PushupCycleTracker :=
  { cycle_state := PushupCycleState.CYCLE_ASCENDING,
    predictions := [⟨2, 1, 0⟩],
    cycle_start_time := 0, cycle_end_time := 0 }

/-- A machine in STATE_ASCENDING since time 0. -/
def rcAscending : RepCounter :=
  { total_reps := 0, good_form_reps := 0, poor_form_reps := 0,
    state := PushupState.STATE_ASCENDING, phase_confirm_count := 0,
    good_form_count := 0, poor_form_count := 0, state_enter_time := 0 }

@[simp] lemma tallyPosture_state (posture : ℕ) (rc : RepCounter) :
    (tallyPosture posture rc).state = rc.state := by
  unfold tallyPosture; split_ifs <;> rfl

@[simp] lemma tallyPosture_confirm (posture : ℕ) (rc : RepCounter) :
    (tallyPosture posture rc).phase_confirm_count = rc.phase_confirm_count := by
  unfold tallyPosture; split_ifs <;> rfl

@[simp] lemma tallyPosture_total (posture : ℕ) (rc : RepCounter) :
    (tallyPosture posture rc).total_reps = rc.total_reps := by
  unfold tallyPosture; split_ifs <;> rfl

@[simp] lemma bufferPrediction_cycle_state (phase posture now : ℕ) (ct : PushupCycleTracker) :
    (bufferPrediction phase posture now ct).cycle_state = ct.cycle_state := by
  unfold bufferPrediction; split_ifs <;> rfl

@[simp] lemma completeRep_state (a : ℕ) (rc : RepCounter) :
    (CompleteRepWithAggregation a rc).state = rc.state := by
  unfold CompleteRepWithAggregation; split_ifs <;> rfl

@[simp] lemma completeRep_total (a : ℕ) (rc : RepCounter) :
    (CompleteRepWithAggregation a rc).total_reps = rc.total_reps + 1 := by
  unfold CompleteRepWithAggregation; split_ifs <;> rfl

@[simp] lemma completeRep_confirm (a : ℕ) (rc : RepCounter) :
    (CompleteRepWithAggregation a rc).phase_confirm_count = rc.phase_confirm_count := by
  unfold CompleteRepWithAggregation; split_ifs <;> rfl

/-- The strict-scan argmax keeps the lowest class index among maxima:
characterization of bestByVotes. -/
lemma bestByVotes_spec (v0 v1 v2 v3 : ℕ) :
    (bestByVotes v0 v1 v2 v3 = 0 ∧ v1 ≤ v0 ∧ v2 ≤ v0 ∧ v3 ≤ v0) ∨
    (bestByVotes v0 v1 v2 v3 = 1 ∧ v0 < v1 ∧ v2 ≤ v1 ∧ v3 ≤ v1) ∨
    (bestByVotes v0 v1 v2 v3 = 2 ∧ v0 < v2 ∧ v1 < v2 ∧ v3 ≤ v2) ∨
    (bestByVotes v0 v1 v2 v3 = 3 ∧ v0 < v3 ∧ v1 < v3 ∧ v2 < v3) := by
  simp only [bestByVotes]
  split_ifs <;> simp_all <;> omega

/-- C roundf rounds to within half of its argument. -/
lemma abs_roundf_sub (q : ℚ) : |(roundf q : ℚ) - q| ≤ 1 / 2 := by
  unfold roundf
  split_ifs with h
  · rw [abs_le]
    have h1 := Int.floor_le (q + 1 / 2)
    have h2 := Int.lt_floor_add_one (q + 1 / 2)
    constructor <;> push_cast at h1 h2 ⊢ <;> linarith
  · rw [abs_le]
    have h1 := Int.floor_le (-q + 1 / 2)
    have h2 := Int.lt_floor_add_one (-q + 1 / 2)
    constructor <;> push_cast at h1 h2 ⊢ <;> linarith

/-- C1: from STATE_IDLE with confirm-counter 0 and no active cycle, the phase
sequence [at-top, moving, moving, at-bottom, at-bottom, moving, moving,
at-top, at-top] (phases [0,1,1,2,2,1,1,0,0]), one UpdateRepCounter call per
element with any fixed posture input, increments total_reps by exactly 1 and
ends in STATE_AT_TOP. -/
theorem c1_rep_sequence (posture : Fin 4) :
    (runPhases [0, 1, 1, 2, 2, 1, 1, 0, 0] (posture : ℕ) 0
        rep_counter0 cycle_tracker0).1.total_reps = rep_counter0.total_reps + 1 ∧
    (runPhases [0, 1, 1, 2, 2, 1, 1, 0, 0] (posture : ℕ) 0
        rep_counter0 cycle_tracker0).1.state = PushupState.STATE_AT_TOP := by
  revert posture; decide

/-- C2 counterexample: STATE_AT_TOP is not Idle and its time-in-state exceeds
the 10 s timeout at time 20000, yet the loop timeout handling (both the state
and the cycle timeout blocks) leaves the machine in STATE_AT_TOP with no rep
increment: the timeout guard in loop() skips STATE_AT_TOP as well as
STATE_IDLE, so the machine neither force-completes nor resets to Idle. -/
theorem c2_timeout_counterexample :
    rcAtTopStuck.state ≠ PushupState.STATE_IDLE ∧
    STATE_TIMEOUT_MS < 20000 - rcAtTopStuck.state_enter_time ∧
    (timeoutSteps 20000 rcAtTopStuck cycle_tracker0).1.state = PushupState.STATE_AT_TOP ∧
    (timeoutSteps 20000 rcAtTopStuck cycle_tracker0).1.total_reps =
      rcAtTopStuck.total_reps := by
  decide

/-- C2 amended: for every state other than STATE_IDLE and STATE_AT_TOP, once
the time in state exceeds the 10 s timeout, the state-timeout block recovers:
in STATE_ASCENDING with at least 2 buffered predictions it force-completes the
rep (total_reps + 1) and moves to STATE_AT_TOP; in every other case it
discards the in-flight cycle without incrementing total_reps and resets to
STATE_IDLE. -/
theorem c2_timeout_amended (now : ℕ) (rc : RepCounter) (ct : PushupCycleTracker)
    (h1 : rc.state ≠ PushupState.STATE_IDLE) (h2 : rc.state ≠ PushupState.STATE_AT_TOP)
    (h3 : STATE_TIMEOUT_MS < now - rc.state_enter_time) :
    (rc.state = PushupState.STATE_ASCENDING ∧ 2 ≤ ct.predictions.length →
        (stateTimeoutStep now rc ct).1.total_reps = rc.total_reps + 1 ∧
        (stateTimeoutStep now rc ct).1.state = PushupState.STATE_AT_TOP ∧
        (stateTimeoutStep now rc ct).2.cycle_state = PushupCycleState.CYCLE_IDLE ∧
        (stateTimeoutStep now rc ct).2.predictions = []) ∧
    (¬(rc.state = PushupState.STATE_ASCENDING ∧ 2 ≤ ct.predictions.length) →
        (stateTimeoutStep now rc ct).1.total_reps = rc.total_reps ∧
        (stateTimeoutStep now rc ct).1.state = PushupState.STATE_IDLE ∧
        (stateTimeoutStep now rc ct).2.cycle_state = PushupCycleState.CYCLE_IDLE ∧
        (stateTimeoutStep now rc ct).2.predictions = []) := by
  unfold stateTimeoutStep
  rw [if_pos ⟨h1, h2, h3⟩]
  constructor
  · intro h
    rw [if_pos h]
    exact ⟨completeRep_total _ rc, rfl, rfl, rfl⟩
  · intro h
    rw [if_neg h]
    exact ⟨rfl, rfl, rfl, rfl⟩

/-- Witness for C2 (amended) at a machine stuck in STATE_DESCENDING. -/
theorem c2_timeout_amended_witness :
    (stateTimeoutStep 20000
        { rcAtTopStuck with state := PushupState.STATE_DESCENDING }
        cycle_tracker0).1.state = PushupState.STATE_IDLE ∧
    (stateTimeoutStep 20000
        { rcAtTopStuck with state := PushupState.STATE_DESCENDING }
        cycle_tracker0).1.total_reps =
      ({ rcAtTopStuck with state := PushupState.STATE_DESCENDING } : RepCounter).total_reps := by
  have h := c2_timeout_amended 20000
      { rcAtTopStuck with state := PushupState.STATE_DESCENDING } cycle_tracker0
      (by decide) (by decide) (by decide)
  exact ⟨(h.2 (by decide)).2.1, (h.2 (by decide)).1⟩

/-- C3 counterexample: this ring has fewer than 2 qualifying (non-at-top)
predictions, so by the claim the aggregator would fall back to the most recent
prediction and return its posture class 1; the code keys its fallback on the
total prediction count (2 here), votes instead, and returns class 0. -/
theorem c3_aggregate_counterexample :
    (ctAllAtTop.predictions.countP (fun p => p.phase_class != 0)) < 2 ∧
    (ctAllAtTop.predictions.getD (ctAllAtTop.predictions.length - 1) ⟨9, 9, 9⟩).posture_class
      = 1 ∧
    AggregatePredictions ctAllAtTop = 0 := by
  decide

/-- C3 amended: when at least 2 predictions (of any phase) are buffered, the
aggregator returns the class with the most votes among non-at-top predictions,
ties broken toward the lowest class index; when fewer than 2 predictions in
total are buffered (the code keys the low-confidence fallback on the total
count, not on the qualifying count), it returns the posture class of the
most recent prediction.  On the ring [(good, moving), (poor, moving), (good, at-bottom)]
it returns good-form (class 0). -/
theorem c3_aggregate_amended (ct : PushupCycleTracker) (h : 1 ≤ ct.predictions.length) :
    (ct.predictions.length < 2 →
      AggregatePredictions ct =
        (ct.predictions.getD (ct.predictions.length - 1) ⟨0, 0, 0⟩).posture_class) ∧
    (2 ≤ ct.predictions.length →
      ((AggregatePredictions ct = 0 ∧
          voteCount ct.predictions 1 ≤ voteCount ct.predictions 0 ∧
          voteCount ct.predictions 2 ≤ voteCount ct.predictions 0 ∧
          voteCount ct.predictions 3 ≤ voteCount ct.predictions 0) ∨
       (AggregatePredictions ct = 1 ∧
          voteCount ct.predictions 0 < voteCount ct.predictions 1 ∧
          voteCount ct.predictions 2 ≤ voteCount ct.predictions 1 ∧
          voteCount ct.predictions 3 ≤ voteCount ct.predictions 1) ∨
       (AggregatePredictions ct = 2 ∧
          voteCount ct.predictions 0 < voteCount ct.predictions 2 ∧
          voteCount ct.predictions 1 < voteCount ct.predictions 2 ∧
          voteCount ct.predictions 3 ≤ voteCount ct.predictions 2) ∨
       (AggregatePredictions ct = 3 ∧
          voteCount ct.predictions 0 < voteCount ct.predictions 3 ∧
          voteCount ct.predictions 1 < voteCount ct.predictions 3 ∧
          voteCount ct.predictions 2 < voteCount ct.predictions 3))) ∧
    AggregatePredictions ctExampleRing = 0 := by
  refine ⟨fun h2 => ?_, fun h2 => ?_, by decide⟩
  · unfold AggregatePredictions
    rw [if_pos h2]
  · unfold AggregatePredictions
    rw [if_neg (by omega)]
    exact bestByVotes_spec _ _ _ _

/-- Witness for C3 (amended) at a one-prediction ring. -/
theorem c3_aggregate_amended_witness :
    1 ≤ ctOnePred.predictions.length ∧ AggregatePredictions ctOnePred = 2 :=
  ⟨by decide, ((c3_aggregate_amended ctOnePred (by decide)).1 (by decide)).trans (by decide)⟩

/-- C4 counterexample: from the reachable state STATE_IDLE, the consistent
trend [moving, moving] leaves the machine in STATE_IDLE, but a single at-top
blip then causes an immediate transition to STATE_AT_TOP: the Idle row of the
transition table has no hysteresis, so a single-sample blip does change the
state. -/
theorem c4_blip_counterexample :
    (runPhases [1, 1] 0 0 rep_counter0 cycle_tracker0).1.state = PushupState.STATE_IDLE ∧
    (runPhases [1, 1, 0] 0 0 rep_counter0 cycle_tracker0).1.state =
      PushupState.STATE_AT_TOP := by
  decide

/-- C4 amended: in every state other than STATE_IDLE, any phase input that is
not the trigger phase of the state resets the hysteresis confirm-counter to 0 and
leaves the state unchanged; moreover, with the confirm-counter at 0 no single
input whatsoever can change the state, so a single-sample blip surrounded by a
consistent trend never causes a transition from a non-Idle state.  From
STATE_IDLE, however, a single at-top input transitions immediately. -/
theorem c4_blip_amended (phase posture now : ℕ) (rc : RepCounter) (ct : PushupCycleTracker)
    (h1 : rc.state ≠ PushupState.STATE_IDLE) :
    (phase ≠ triggerPhase rc.state →
      (UpdateRepCounter phase posture now rc ct).1.state = rc.state ∧
      (UpdateRepCounter phase posture now rc ct).1.phase_confirm_count = 0) ∧
    (rc.phase_confirm_count = 0 →
      (UpdateRepCounter phase posture now rc ct).1.state = rc.state) := by
  obtain ⟨tr, gr, pr, st, cc, gc, pc, et⟩ := rc
  simp only at h1 ⊢
  cases st
  · exact absurd rfl h1
  all_goals
    refine ⟨fun h2 => ?_, fun h3 => ?_⟩ <;>
      simp only [UpdateRepCounter, transitionStep, applyStateChange, tallyPosture_state,
        tallyPosture_confirm] <;>
      split_ifs <;>
      simp_all [triggerPhase]

/-- Witness for C4 (amended) in STATE_AT_TOP with a non-trigger input. -/
theorem c4_blip_amended_witness :
    (UpdateRepCounter 0 0 0 rcAtTopStuck cycle_tracker0).1.state =
      PushupState.STATE_AT_TOP ∧
    (UpdateRepCounter 0 0 0 rcAtTopStuck cycle_tracker0).1.phase_confirm_count = 0 :=
  (c4_blip_amended 0 0 0 rcAtTopStuck cycle_tracker0 (by decide)).1 (by decide)

/-- C5: every biquad stage computes the Direct-Form-II-transposed recurrence
(output = b0*x + w1, then new w1 = b1*x - a1*output + w2 and
new w2 = b2*x - a2*output), and the cascaded 4th-order filter is exactly this
recurrence applied to section 1 and then, on its output, to section 2. -/
theorem c5_biquad_recurrence (s : BiquadState) (x b0 b1 b2 a1 a2 : ℚ)
    (f : ButterworthFilter) :
    (ApplyBiquad s x b0 b1 b2 a1 a2).1 = b0 * x + s.w1 ∧
    (ApplyBiquad s x b0 b1 b2 a1 a2).2.w1 = b1 * x - a1 * (b0 * x + s.w1) + s.w2 ∧
    (ApplyBiquad s x b0 b1 b2 a1 a2).2.w2 = b2 * x - a2 * (b0 * x + s.w1) ∧
    (ApplyButterworthFilter f x).1 =
      (ApplyBiquad f.section2
        (ApplyBiquad f.section1 x f.b0_1 f.b1_1 f.b2_1 f.a1_1 f.a2_1).1
        f.b0_2 f.b1_2 f.b2_2 f.a1_2 f.a2_2).1 ∧
    (ApplyButterworthFilter f x).2.section1 =
      (ApplyBiquad f.section1 x f.b0_1 f.b1_1 f.b2_1 f.a1_1 f.a2_1).2 ∧
    (ApplyButterworthFilter f x).2.section2 =
      (ApplyBiquad f.section2
        (ApplyBiquad f.section1 x f.b0_1 f.b1_1 f.b2_1 f.a1_1 f.a2_1).1
        f.b0_2 f.b1_2 f.b2_2 f.a1_2 f.a2_2).2 :=
  ⟨rfl, rfl, rfl, rfl, rfl, rfl⟩

/-- C6: every value written into the classifier input tensor equals
clamp(round(((raw - mean[ch]) / (std[ch] + 1e-8)) / scale) + zero_point,
-128, 127), where raw is the circular-buffer sample of that window position,
and in particular every written value lies in [-128, 127]. -/
theorem c6_input_quantization (imu_buffer : ℕ → ℕ → ℚ) (buffer_index : ℤ)
    (imu_mean imu_std : ℕ → ℚ) (input_scale : ℚ) (input_zp : ℤ) (t ch : ℕ) :
    InputTensorValue imu_buffer buffer_index imu_mean imu_std input_scale input_zp t ch =
      clampInt8 (roundf (((imu_buffer
          (((buffer_index - (WINDOW_SIZE : ℤ) + (t : ℤ) + (BUFFER_SIZE : ℤ)) %
            (BUFFER_SIZE : ℤ)).toNat) ch - imu_mean ch) /
          (imu_std ch + epsilonNorm)) / input_scale) + input_zp) ∧
    -128 ≤ InputTensorValue imu_buffer buffer_index imu_mean imu_std input_scale input_zp t ch ∧
    InputTensorValue imu_buffer buffer_index imu_mean imu_std input_scale input_zp t ch ≤ 127 := by
  refine ⟨rfl, ?_, ?_⟩ <;>
    · unfold InputTensorValue QuantizeValue clampInt8
      split_ifs <;> omega

/-- C7: for positive scale and x in the representable range (the rounded,
shifted value not hitting the int8 clamp), quantize-then-dequantize returns
within half a quantization step of x. -/
theorem c7_quant_roundtrip (scale : ℚ) (zero_point : ℤ) (x : ℚ)
    (hs : 0 < scale)
    (hlo : -128 ≤ roundf (x / scale) + zero_point)
    (hhi : roundf (x / scale) + zero_point ≤ 127) :
    |Dequantize scale zero_point (QuantizeValue x scale zero_point) - x| ≤ scale / 2 := by
  have hs0 : scale ≠ 0 := ne_of_gt hs
  have hq : QuantizeValue x scale zero_point = roundf (x / scale) + zero_point := by
    unfold QuantizeValue clampInt8
    split_ifs <;> omega
  rw [hq]
  have hd : Dequantize scale zero_point (roundf (x / scale) + zero_point) =
      scale * ((roundf (x / scale) : ℚ)) := by
    unfold Dequantize
    push_cast
    ring
  rw [hd]
  have key : scale * ((roundf (x / scale) : ℚ)) - x =
      scale * ((roundf (x / scale) : ℚ) - x / scale) := by
    field_simp
    ring
  rw [key, abs_mul, abs_of_pos hs]
  calc scale * |(roundf (x / scale) : ℚ) - x / scale|
      ≤ scale * (1 / 2) :=
        mul_le_mul_of_nonneg_left (abs_roundf_sub (x / scale)) (le_of_lt hs)
    _ = scale / 2 := by ring

/-- Witness for C7 with scale 1/2, zero point 0, x = 3/4. -/
theorem c7_quant_roundtrip_witness :
    (0 : ℚ) < 1 / 2 ∧
    -128 ≤ roundf ((3 / 4 : ℚ) / (1 / 2)) + 0 ∧
    roundf ((3 / 4 : ℚ) / (1 / 2)) + 0 ≤ 127 ∧
    |Dequantize (1 / 2) 0 (QuantizeValue (3 / 4) (1 / 2) 0) - 3 / 4| ≤ (1 / 2 : ℚ) / 2 :=
  ⟨by norm_num, by norm_num [roundf], by norm_num [roundf],
   c7_quant_roundtrip (1 / 2) 0 (3 / 4) (by norm_num) (by norm_num [roundf])
     (by norm_num [roundf])⟩

/-- C9: when the classifier invoke reports a non-success status, RunInference
logs and discards the window: the rep counter (state, confirm-counter, all
tallies) and the cycle tracker are returned exactly as they were. -/
theorem c9_invoke_failure (samples_collected best_phase best_posture now : ℕ)
    (rc : RepCounter) (ct : PushupCycleTracker) :
    RunInference samples_collected TfLiteStatus.kTfLiteError best_phase best_posture now
      rc ct = (rc, ct) := by
  unfold RunInference
  split_ifs with h1 h2
  · rfl
  · rfl
  · simp at h2

/-- StateCycleInv holds for the initial globals. -/
lemma stateCycleInv_initial : StateCycleInv rep_counter0 cycle_tracker0 := by
  decide

/-- StateCycleInv is preserved by every state-machine update. -/
lemma stateCycleInv_update (phase posture now : ℕ) (rc : RepCounter)
    (ct : PushupCycleTracker) (h : StateCycleInv rc ct) :
    StateCycleInv (UpdateRepCounter phase posture now rc ct).1
      (UpdateRepCounter phase posture now rc ct).2 := by
  unfold StateCycleInv at h ⊢
  obtain ⟨tr, gr, pr, st, cc, gc, pc, et⟩ := rc
  obtain ⟨cs, preds, cst, cet⟩ := ct
  simp only at h ⊢
  cases st <;>
    simp only [UpdateRepCounter, transitionStep, applyStateChange, tallyPosture_state,
      tallyPosture_confirm, bufferPrediction_cycle_state] <;>
    split_ifs <;>
    simp_all

/-- StateCycleInv is preserved by both timeout blocks. -/
lemma stateCycleInv_timeout (now : ℕ) (rc : RepCounter) (ct : PushupCycleTracker)
    (h : StateCycleInv rc ct) :
    StateCycleInv (stateTimeoutStep now rc ct).1 (stateTimeoutStep now rc ct).2 ∧
    StateCycleInv (cycleTimeoutStep now rc ct).1 (cycleTimeoutStep now rc ct).2 := by
  unfold StateCycleInv at h ⊢
  constructor
  · unfold stateTimeoutStep
    split_ifs <;> simp_all
  · unfold cycleTimeoutStep
    split_ifs <;> simp_all

/-- The prediction ring never exceeds its capacity of 6: preserved by every
state-machine update. -/
lemma predictions_capacity_update (phase posture now : ℕ) (rc : RepCounter)
    (ct : PushupCycleTracker)
    (h : ct.predictions.length ≤ MAX_PREDICTIONS_PER_CYCLE) :
    (UpdateRepCounter phase posture now rc ct).2.predictions.length ≤
      MAX_PREDICTIONS_PER_CYCLE := by
  unfold MAX_PREDICTIONS_PER_CYCLE at h ⊢
  obtain ⟨tr, gr, pr, st, cc, gc, pc, et⟩ := rc
  obtain ⟨cs, preds, cst, cet⟩ := ct
  simp only at h ⊢
  cases st <;>
    simp only [UpdateRepCounter, transitionStep, applyStateChange, tallyPosture_state,
      tallyPosture_confirm] <;>
    split_ifs <;>
    simp_all [bufferPrediction, MAX_PREDICTIONS_PER_CYCLE] <;>
    split_ifs <;>
    simp_all [List.length_tail] <;>
    omega

/-- The confirm-counter is 0 whenever the machine is idle: preserved by every
state-machine update and both timeout blocks. -/
lemma idleConfirm_preserved (phase posture now : ℕ) (rc : RepCounter)
    (ct : PushupCycleTracker)
    (h : rc.state = PushupState.STATE_IDLE → rc.phase_confirm_count = 0) :
    ((UpdateRepCounter phase posture now rc ct).1.state = PushupState.STATE_IDLE →
      (UpdateRepCounter phase posture now rc ct).1.phase_confirm_count = 0) ∧
    ((stateTimeoutStep now rc ct).1.state = PushupState.STATE_IDLE →
      (stateTimeoutStep now rc ct).1.phase_confirm_count = 0) ∧
    ((cycleTimeoutStep now rc ct).1.state = PushupState.STATE_IDLE →
      (cycleTimeoutStep now rc ct).1.phase_confirm_count = 0) := by
  refine ⟨?_, ?_, ?_⟩
  · obtain ⟨tr, gr, pr, st, cc, gc, pc, et⟩ := rc
    simp only at h ⊢
    cases st <;>
      simp only [UpdateRepCounter, transitionStep, applyStateChange, tallyPosture_state,
        tallyPosture_confirm] <;>
      split_ifs <;>
      simp_all
  · unfold stateTimeoutStep
    split_ifs <;> simp_all
  · unfold cycleTimeoutStep
    split_ifs <;> simp_all

/-- After an update step that changes the machine state, the confirm-counter
is 0 (for Idle to AtTop because an idle machine always carries a zero
counter). -/
lemma update_confirm_after_change (phase posture now : ℕ) (rc : RepCounter)
    (ct : PushupCycleTracker)
    (hidle : rc.state = PushupState.STATE_IDLE → rc.phase_confirm_count = 0)
    (h : (UpdateRepCounter phase posture now rc ct).1.state ≠ rc.state) :
    (UpdateRepCounter phase posture now rc ct).1.phase_confirm_count = 0 := by
  obtain ⟨tr, gr, pr, st, cc, gc, pc, et⟩ := rc
  simp only at hidle h ⊢
  cases st <;>
    simp only [UpdateRepCounter, transitionStep, applyStateChange, tallyPosture_state,
      tallyPosture_confirm] at h ⊢ <;>
    split_ifs at h ⊢ <;>
    simp_all

/-- After an update step that moves the cycle tracker across a cycle boundary
(idle to active or active to idle), the prediction buffer is empty and the
confirm-counter is 0. -/
lemma update_cycle_boundary (phase posture now : ℕ) (rc : RepCounter)
    (ct : PushupCycleTracker) (hinv : StateCycleInv rc ct)
    (h : (ct.cycle_state = PushupCycleState.CYCLE_IDLE ∧
          (UpdateRepCounter phase posture now rc ct).2.cycle_state ≠
            PushupCycleState.CYCLE_IDLE) ∨
         (ct.cycle_state ≠ PushupCycleState.CYCLE_IDLE ∧
          (UpdateRepCounter phase posture now rc ct).2.cycle_state =
            PushupCycleState.CYCLE_IDLE)) :
    (UpdateRepCounter phase posture now rc ct).2.predictions = [] ∧
    (UpdateRepCounter phase posture now rc ct).1.phase_confirm_count = 0 := by
  unfold StateCycleInv at hinv
  obtain ⟨tr, gr, pr, st, cc, gc, pc, et⟩ := rc
  obtain ⟨cs, preds, cst, cet⟩ := ct
  simp only at hinv h ⊢
  cases st <;>
    simp only [UpdateRepCounter, transitionStep, applyStateChange, tallyPosture_state,
      tallyPosture_confirm, bufferPrediction_cycle_state] at h ⊢ <;>
    split_ifs at h ⊢ <;>
    simp_all

/-- C8 counterexample: starting from the initial globals, after the prefix
[0,1,1,2] the machine is in STATE_DESCENDING with cycle state
CYCLE_DESCENDING; the next at-bottom input (phases [0,1,1,2,2]) changes both
the machine state (to STATE_AT_BOTTOM) and the cycle lifecycle state (to
CYCLE_AT_BOTTOM), yet the cycle tracker is not reset in that step: it still
holds 2 buffered predictions. -/
theorem c8_reset_counterexample :
    (runPhases [0, 1, 1, 2] 0 0 rep_counter0 cycle_tracker0).1.state =
        PushupState.STATE_DESCENDING ∧
    (runPhases [0, 1, 1, 2] 0 0 rep_counter0 cycle_tracker0).2.cycle_state =
        PushupCycleState.CYCLE_DESCENDING ∧
    (runPhases [0, 1, 1, 2, 2] 0 0 rep_counter0 cycle_tracker0).1.state =
        PushupState.STATE_AT_BOTTOM ∧
    (runPhases [0, 1, 1, 2, 2] 0 0 rep_counter0 cycle_tracker0).2.cycle_state =
        PushupCycleState.CYCLE_AT_BOTTOM ∧
    (runPhases [0, 1, 1, 2, 2] 0 0 rep_counter0 cycle_tracker0).2.predictions.length = 2 := by
  decide

/-- C8 amended: after every update step that changes the machine state the
confirm-counter is 0 (for Idle to AtTop it was already 0, since an idle
machine always has a zero counter); after every step that moves the cycle
tracker between idle and active (cycle start, rep completion, or any timeout)
the prediction buffer is emptied and the confirm-counter is 0 in the same
step.  Mid-cycle lifecycle changes, however, preserve the buffered
predictions rather than resetting the tracker. -/
theorem c8_reset_amended (phase posture now : ℕ) (rc : RepCounter)
    (ct : PushupCycleTracker)
    (hidle : rc.state = PushupState.STATE_IDLE → rc.phase_confirm_count = 0)
    (hinv : StateCycleInv rc ct) :
    ((UpdateRepCounter phase posture now rc ct).1.state ≠ rc.state →
        (UpdateRepCounter phase posture now rc ct).1.phase_confirm_count = 0) ∧
    ((ct.cycle_state = PushupCycleState.CYCLE_IDLE ∧
        (UpdateRepCounter phase posture now rc ct).2.cycle_state ≠
          PushupCycleState.CYCLE_IDLE) ∨
     (ct.cycle_state ≠ PushupCycleState.CYCLE_IDLE ∧
        (UpdateRepCounter phase posture now rc ct).2.cycle_state =
          PushupCycleState.CYCLE_IDLE) →
        (UpdateRepCounter phase posture now rc ct).2.predictions = [] ∧
        (UpdateRepCounter phase posture now rc ct).1.phase_confirm_count = 0) ∧
    ((stateTimeoutStep now rc ct).1.state ≠ rc.state ∨
     (stateTimeoutStep now rc ct).2.cycle_state ≠ ct.cycle_state →
        (stateTimeoutStep now rc ct).1.phase_confirm_count = 0 ∧
        (stateTimeoutStep now rc ct).2.predictions = []) ∧
    ((cycleTimeoutStep now rc ct).1.state ≠ rc.state ∨
     (cycleTimeoutStep now rc ct).2.cycle_state ≠ ct.cycle_state →
        (cycleTimeoutStep now rc ct).1.phase_confirm_count = 0 ∧
        (cycleTimeoutStep now rc ct).2.predictions = []) := by
  refine ⟨fun h => update_confirm_after_change phase posture now rc ct hidle h,
          fun h => update_cycle_boundary phase posture now rc ct hinv h, ?_, ?_⟩
  · unfold stateTimeoutStep
    split_ifs
    · intro _; exact ⟨rfl, rfl⟩
    · intro _; exact ⟨rfl, rfl⟩
    · intro h; rcases h with h | h <;> exact absurd rfl h
  · unfold cycleTimeoutStep
    split_ifs
    · intro _; exact ⟨rfl, rfl⟩
    · intro h; rcases h with h | h <;> exact absurd rfl h

/-- Witness for C8 (amended): the AtTop to Descending transition leaves the
confirm-counter at 0. -/
theorem c8_reset_amended_witness :
    (UpdateRepCounter 1 0 5
        { rcAtTopStuck with phase_confirm_count := 1 } cycle_tracker0).1.phase_confirm_count
      = 0 := by
  have h := c8_reset_amended 1 0 5 { rcAtTopStuck with phase_confirm_count := 1 }
      cycle_tracker0 (by decide) (by decide)
  exact h.1 (by decide)

/-- C10: whenever the state machine invokes prediction aggregation, the
tracker it hands over holds at least one prediction, so the fallback access
at index prediction_count - 1 is within the bounds of the 6-entry prediction
array.  At the rep-completion site the machine is in STATE_ASCENDING, hence
(by the reachability invariant) the cycle is active and the buffering step
that runs earlier in the same UpdateRepCounter call has made the count at
least 1; at the ASCENDING-timeout site the guard itself requires at least 2
buffered predictions. -/
theorem c10_aggregation_inbounds (phase posture now : ℕ) (rc : RepCounter)
    (ct : PushupCycleTracker)
    (hst : rc.state = PushupState.STATE_ASCENDING)
    (hinv : StateCycleInv rc ct)
    (hcap : ct.predictions.length ≤ MAX_PREDICTIONS_PER_CYCLE) :
    (1 ≤ (bufferPrediction phase posture now ct).predictions.length ∧
     (bufferPrediction phase posture now ct).predictions.length - 1 <
       (bufferPrediction phase posture now ct).predictions.length ∧
     (bufferPrediction phase posture now ct).predictions.length - 1 <
       MAX_PREDICTIONS_PER_CYCLE) ∧
    (2 ≤ ct.predictions.length →
      1 ≤ ct.predictions.length ∧
      ct.predictions.length - 1 < MAX_PREDICTIONS_PER_CYCLE) := by
  have hcyc : ct.cycle_state ≠ PushupCycleState.CYCLE_IDLE :=
    hinv (Or.inr (Or.inr hst))
  unfold MAX_PREDICTIONS_PER_CYCLE at hcap ⊢
  constructor
  · unfold bufferPrediction MAX_PREDICTIONS_PER_CYCLE
    rw [if_pos hcyc]
    split_ifs with h
    · simp only [List.length_append, List.length_cons, List.length_nil]
      omega
    · simp only [List.length_append, List.length_tail, List.length_cons, List.length_nil]
      omega
  · intro h2
    exact ⟨by omega, by omega⟩

/-- Witness for C10 at an ascending machine with a one-prediction active
cycle. -/
theorem c10_aggregation_inbounds_witness :
    1 ≤ (bufferPrediction 0 0 0 ctOnePred).predictions.length ∧
    (bufferPrediction 0 0 0 ctOnePred).predictions.length - 1 <
      MAX_PREDICTIONS_PER_CYCLE := by
  have h := c10_aggregation_inbounds 0 0 0 rcAscending ctOnePred rfl
      (by decide) (by decide)
  exact ⟨h.1.1, h.1.2.2⟩
